import Mathlib

/-!
Verification of the aerodynamics core of the wind-tunnel application.

The source has two numerical kernels:
* a vortex panel solver (calculatePhysics plus solveLinearSystem in the
  physics service), computing on JavaScript IEEE numbers, and
* a D2Q9 lattice-Boltzmann fluid engine (simulate, rasterizePolygon in the
  WindTunnel component), whose arithmetic is pure rational arithmetic.

The panel solver is embedded over JSNum, a model of the JavaScript number
line with exact rational finite values plus positive infinity, negative
infinity and NaN.  Finite arithmetic is exact (rounding is not modelled);
the special values follow the IEEE/JavaScript propagation rules, which is
what the error-handling claims are about.  Negative zero is not modelled.
The transcendental library functions (Math.cos and friends) are parameters
(RealPrims); concrete theorems instantiate them with rational surrogates
that agree with the JavaScript functions at every argument actually
reached where the value matters, as documented at ratPrims.

The lattice engine and the rasterizer are embedded directly over the
rationals, since their source uses only field operations and comparisons.
-/

namespace AeroSim

/-- Model of a JavaScript number: an exact rational, an infinity, or NaN. -/
inductive JSNum where
  | num : ℚ → JSNum
  | posInf : JSNum
  | negInf : JSNum
  | nan : JSNum
deriving DecidableEq

namespace JSNum

/-- JavaScript addition on the modelled number line. -/
def add : JSNum → JSNum → JSNum
  | nan, _ => nan
  | _, nan => nan
  | posInf, negInf => nan
  | negInf, posInf => nan
  | posInf, _ => posInf
  | _, posInf => posInf
  | negInf, _ => negInf
  | _, negInf => negInf
  | num a, num b => num (a + b)

/-- JavaScript unary minus. -/
def neg : JSNum → JSNum
  | num a => num (-a)
  | posInf => negInf
  | negInf => posInf
  | nan => nan

/-- JavaScript subtraction. -/
def sub (a b : JSNum) : JSNum := add a (neg b)

/-- JavaScript multiplication: NaN absorbs, zero times infinity is NaN. -/
def mul : JSNum → JSNum → JSNum
  | nan, _ => nan
  | _, nan => nan
  | num a, num b => num (a * b)
  | num a, posInf => if a = 0 then nan else if 0 < a then posInf else negInf
  | num a, negInf => if a = 0 then nan else if 0 < a then negInf else posInf
  | posInf, num b => if b = 0 then nan else if 0 < b then posInf else negInf
  | negInf, num b => if b = 0 then nan else if 0 < b then negInf else posInf
  | posInf, posInf => posInf
  | posInf, negInf => negInf
  | negInf, posInf => negInf
  | negInf, negInf => posInf

/-- JavaScript division: zero over zero is NaN, nonzero over zero is a
signed infinity (negative zero is not modelled, so the zero divisor is
treated as positive, matching division by +0), infinity over infinity
is NaN. -/
def div : JSNum → JSNum → JSNum
  | nan, _ => nan
  | _, nan => nan
  | num a, num b =>
      if b = 0 then (if a = 0 then nan else if 0 < a then posInf else negInf)
      else num (a / b)
  | num _, posInf => num 0
  | num _, negInf => num 0
  | posInf, num b => if 0 ≤ b then posInf else negInf
  | negInf, num b => if 0 ≤ b then negInf else posInf
  | posInf, _ => nan
  | negInf, _ => nan

/-- JavaScript Math.abs. -/
def abs : JSNum → JSNum
  | num a => num |a|
  | nan => nan
  | _ => posInf

/-- JavaScript strict less-than: any comparison with NaN is false. -/
def lt : JSNum → JSNum → Bool
  | nan, _ => false
  | _, nan => false
  | posInf, _ => false
  | _, negInf => false
  | negInf, _ => true
  | num a, num b => decide (a < b)
  | num _, posInf => true

/-- JavaScript strict greater-than. -/
def gt (a b : JSNum) : Bool := lt b a

/-- JavaScript truthiness of a number: zero and NaN are falsy. -/
def truthy : JSNum → Bool
  | num q => decide (q ≠ 0)
  | nan => false
  | _ => true

/-- Whether the value is NaN. -/
def isNaN : JSNum → Bool
  | nan => true
  | _ => false

/-- JavaScript Number.isFinite. -/
def isFiniteB : JSNum → Bool
  | num _ => true
  | _ => false

/-- The JavaScript or-operator on numbers, as used in the guards
of the returned record: a falsy left operand selects the right one. -/
def orDefault (a b : JSNum) : JSNum := if truthy a = true then a else b

end JSNum

/-- Shorthand embedding of a rational literal as a JavaScript number. -/
def jq (q : ℚ) : JSNum := JSNum.num q

abbrev jsAdd := JSNum.add
abbrev jsSub := JSNum.sub
abbrev jsMul := JSNum.mul
abbrev jsDiv := JSNum.div
abbrev jsNeg := JSNum.neg
abbrev jsAbs := JSNum.abs
abbrev jsGt := JSNum.gt
abbrev jsLt := JSNum.lt
abbrev jsOr := JSNum.orDefault

/-- A 2D point, from the Point interface of the types module. -/
structure Point where
  x : JSNum
  y : JSNum
deriving DecidableEq

/-- One entry of the pressure-coefficient distribution. -/
structure CpPoint where
  x : JSNum
  cp : JSNum
deriving DecidableEq

/-- The PhysicsResult record of the types module. -/
structure PhysicsResult where
  liftCoefficient : JSNum
  dragCoefficient : JSNum
  momentCoefficient : JSNum
  reynoldsNumber : JSNum
  cpDistribution : List CpPoint
  centerOfPressure : JSNum
deriving DecidableEq

/-- The transcendental library functions used by the panel solver
(Math.PI, Math.sqrt, Math.cos, Math.sin, Math.atan2, Math.hypot,
Math.pow), kept as parameters of the embedding. -/
structure RealPrims where
  pi : JSNum
  sqrt : JSNum → JSNum
  cos : JSNum → JSNum
  sin : JSNum → JSNum
  atan2 : JSNum → JSNum → JSNum
  hypot : JSNum → JSNum → JSNum
  pow : JSNum → JSNum → JSNum

/-- Entry k j of a row-list matrix (indices are always in range at the
call sites, mirroring the source array indexing). -/
def mEntry (M : List (List JSNum)) (k j : ℕ) : JSNum := (M.getD k []).getD j (jq 0)

/-- Partial-pivot selection of solveLinearSystem: the row among i, i+1,
..., n-1 whose column-i entry has the largest absolute value, scanning
upward and keeping the earlier row on ties (NaN compares false, so NaN
entries never win), exactly as the source loop does. -/
def pivotSearch (M : List (List JSNum)) (i : ℕ) : ℕ :=
  (List.range' (i + 1) (M.length - (i + 1))).foldl
    (fun maxRow k =>
      if jsGt (jsAbs (mEntry M k i)) (jsAbs (mEntry M maxRow i)) = true then k else maxRow)
    i

/-- Swap two rows, as the destructuring assignment in the source. -/
def swapRows (M : List (List JSNum)) (i k : ℕ) : List (List JSNum) :=
  (M.set i (M.getD k [])).set k (M.getD i [])

/-- One pivot step of the Gaussian elimination in solveLinearSystem:
pivot selection and swap, normalisation of the pivot row from column i
on, then elimination of column i from every other row (the factor is
read before the row is modified, and only columns from i on are
updated, exactly as the source loops do). -/
def geStep (M : List (List JSNum)) (i : ℕ) : List (List JSNum) :=
  let M1 := swapRows M i (pivotSearch M i)
  let pivot := mEntry M1 i i
  let rowi := (List.range (M1.getD i []).length).map
    (fun j => if i ≤ j then jsDiv (mEntry M1 i j) pivot else mEntry M1 i j)
  let M2 := M1.set i rowi
  (List.range M2.length).map (fun k =>
    if k = i then rowi
    else
      let factor := mEntry M2 k i
      (List.range (M2.getD k []).length).map
        (fun j =>
          if i ≤ j then jsSub (mEntry M2 k j) (jsMul factor (rowi.getD j (jq 0)))
          else mEntry M2 k j))

/-- The solveLinearSystem function of the physics service: Gaussian
elimination with partial pivoting on the augmented matrix, returning the
last column.  JavaScript numeric operations never throw, so the function
is total: a singular system produces infinities or NaN entries instead
of an exception. -/
def solveLinearSystem (A : List (List JSNum)) (b : List JSNum) : List JSNum :=
  let n := A.length
  let M0 := (List.range n).map (fun i => (A.getD i []) ++ [b.getD i (jq 0)])
  let Mf := (List.range n).foldl geStep M0
  (List.range n).map (fun k => (Mf.getD k []).getD n (jq 0))

/-- The angle of incidence in radians: alphaDeg * (Math.PI / 180). -/
def alphaRad (P : RealPrims) (alphaDeg : JSNum) : JSNum :=
  jsMul alphaDeg (jsDiv P.pi (jq 180))

/-- The open chain of panels: consecutive vertex pairs, count one less
than the vertex count. -/
def panelsOf (shape : List Point) : List (Point × Point) :=
  shape.zip shape.tail

/-- Panel lengths via Math.hypot of the vertex differences. -/
def panelLengthsOf (P : RealPrims) (shape : List Point) : List JSNum :=
  (panelsOf shape).map (fun pr => P.hypot (jsSub pr.2.x pr.1.x) (jsSub pr.2.y pr.1.y))

/-- Panel orientation angles via Math.atan2(dy, dx). -/
def panelThetasOf (P : RealPrims) (shape : List Point) : List JSNum :=
  (panelsOf shape).map (fun pr => P.atan2 (jsSub pr.2.y pr.1.y) (jsSub pr.2.x pr.1.x))

/-- Panel midpoints (collocation points). -/
def controlPointsOf (shape : List Point) : List Point :=
  (panelsOf shape).map (fun pr =>
    { x := jsDiv (jsAdd pr.1.x pr.2.x) (jq 2), y := jsDiv (jsAdd pr.1.y pr.2.y) (jq 2) })

/-- x-component of the unit normal of panel i: -sin(theta i). -/
def normalXof (P : RealPrims) (shape : List Point) (i : ℕ) : JSNum :=
  jsNeg (P.sin ((panelThetasOf P shape).getD i (jq 0)))

/-- y-component of the unit normal of panel i: cos(theta i). -/
def normalYof (P : RealPrims) (shape : List Point) (i : ℕ) : JSNum :=
  P.cos ((panelThetasOf P shape).getD i (jq 0))

/-- The influence matrix: 0.5 on the diagonal (self influence), and for
i different from j the point-vortex kernel (1 / (2 pi)) * (cross / r2)
scaled by the length of panel j, where cross is the cross product of the
midpoint separation with the normal of panel i.  The source also
computes Math.sqrt(r2) into an unused local, which has no effect and is
omitted. -/
def influenceMatrix (P : RealPrims) (shape : List Point) : List (List JSNum) :=
  let n := shape.length - 1
  (List.range n).map (fun i =>
    (List.range n).map (fun j =>
      if i = j then jq (1/2)
      else
        let cpi := (controlPointsOf shape).getD i { x := jq 0, y := jq 0 }
        let cpj := (controlPointsOf shape).getD j { x := jq 0, y := jq 0 }
        let dx := jsSub cpi.x cpj.x
        let dy := jsSub cpi.y cpj.y
        let r2 := jsAdd (jsMul dx dx) (jsMul dy dy)
        let cross := jsSub (jsMul dx (normalYof P shape i)) (jsMul dy (normalXof P shape i))
        jsMul (jsMul (jsDiv (jq 1) (jsMul (jq 2) P.pi)) (jsDiv cross r2))
          ((panelLengthsOf P shape).getD j (jq 0))))

/-- The right-hand side: minus the freestream component normal to each
panel, with the freestream decomposed as (cos alpha, sin alpha) times
speed. -/
def rhsVector (P : RealPrims) (shape : List Point) (speed alphaDeg : JSNum) : List JSNum :=
  (List.range (shape.length - 1)).map (fun i =>
    jsNeg (jsMul speed
      (jsAdd (jsMul (P.cos (alphaRad P alphaDeg)) (normalXof P shape i))
             (jsMul (P.sin (alphaRad P alphaDeg)) (normalYof P shape i)))))

/-- The circulation-density vector gamma.  The source wraps the call in
try/catch with an all-zero fallback, but JavaScript numeric operations
never throw, so the catch branch is unreachable and the solver output is
always used as is (singular systems yield NaN or infinite entries). -/
def gammaOf (P : RealPrims) (shape : List Point) (speed alphaDeg : JSNum) : List JSNum :=
  solveLinearSystem (influenceMatrix P shape) (rhsVector P shape speed alphaDeg)

/-- Total circulation: the length-weighted sum of the circulation
densities, accumulated left to right as in the source loop. -/
def circulationOf (P : RealPrims) (shape : List Point) (speed alphaDeg : JSNum) : JSNum :=
  (List.range (shape.length - 1)).foldl
    (fun acc i =>
      jsAdd acc (jsMul ((gammaOf P shape speed alphaDeg).getD i (jq 0))
        ((panelLengthsOf P shape).getD i (jq 0))))
    (jq 0)

/-- The unsorted pressure-coefficient list: Cp = 1 - (localV / Vinf)^2
with localV = Vinf + gamma i, keyed by the midpoint x coordinate. -/
def cpDistOf (P : RealPrims) (shape : List Point) (speed alphaDeg : JSNum) : List CpPoint :=
  (List.range (shape.length - 1)).map (fun i =>
    let localV := jsAdd speed ((gammaOf P shape speed alphaDeg).getD i (jq 0))
    { x := ((controlPointsOf shape).getD i { x := jq 0, y := jq 0 }).x
      cp := jsSub (jq 1) (jsMul (jsDiv localV speed) (jsDiv localV speed)) })

/-- Reynolds number: (Vinf * REAL_CHORD) / KINEMATIC_VISCOSITY with the
fixed constants REAL_CHORD = 0.2 and KINEMATIC_VISCOSITY = 1.460e-5. -/
def reynoldsOf (speed : JSNum) : JSNum :=
  jsDiv (jsMul speed (jq (1/5))) (jq (73/5000000))

/-- The Kutta-Joukowski lift coefficient before stall correction:
(2 * Circulation) / (Vinf * pixelChord) with pixelChord = 200. -/
def clKuttaOf (P : RealPrims) (shape : List Point) (speed alphaDeg : JSNum) : JSNum :=
  jsDiv (jsMul (jq 2) (circulationOf P shape speed alphaDeg)) (jsMul speed (jq 200))

/-- The fixed stall threshold 15 * (Math.PI / 180) in radians. -/
def stallAngleOf (P : RealPrims) : JSNum := jsMul (jq 15) (jsDiv P.pi (jq 180))

/-- The lift coefficient after the stall heuristic: beyond the stall
threshold it is multiplied by cos(alpha) * 0.8, otherwise unchanged. -/
def clStalledOf (P : RealPrims) (shape : List Point) (speed alphaDeg : JSNum) : JSNum :=
  if jsGt (jsAbs (alphaRad P alphaDeg)) (stallAngleOf P) = true then
    jsMul (clKuttaOf P shape speed alphaDeg) (jsMul (P.cos (alphaRad P alphaDeg)) (jq (4/5)))
  else clKuttaOf P shape speed alphaDeg

/-- Turbulent flat-plate skin friction Cf = 0.074 / Math.pow(Re, 0.2). -/
def cfOf (P : RealPrims) (speed : JSNum) : JSNum :=
  jsDiv (jq (37/500)) (P.pow (reynoldsOf speed) (jq (1/5)))

/-- The thickness form factor 1 + 2 * tc + 60 * tc^4 with tc = 0.12. -/
def formFactorConst : JSNum :=
  jsAdd (jsAdd (jq 1) (jsMul (jq 2) (jq (3/25))))
    (jsMul (jq 60) (jsMul (jsMul (jsMul (jq (3/25)) (jq (3/25))) (jq (3/25))) (jq (3/25))))

/-- The drag coefficient: 2 * Cf * formFactor, plus a bluff-body term
1.8 * sin(alpha)^2 beyond the stall threshold, or otherwise an induced
term Cl^2 / (Math.PI * 50) using the post-stall-block lift variable. -/
def cdOf (P : RealPrims) (shape : List Point) (speed alphaDeg : JSNum) : JSNum :=
  let base := jsMul (jsMul (jq 2) (cfOf P speed)) formFactorConst
  if jsGt (jsAbs (alphaRad P alphaDeg)) (stallAngleOf P) = true then
    jsAdd base (jsMul (jq (9/5)) (jsMul (P.sin (alphaRad P alphaDeg)) (P.sin (alphaRad P alphaDeg))))
  else
    jsAdd base (jsDiv (jsMul (clStalledOf P shape speed alphaDeg) (clStalledOf P shape speed alphaDeg))
      (jsMul P.pi (jq 50)))

/-- Insert one Cp entry keeping the list ordered by x (model of the
array sort by the comparator a.x - b.x; the order is ascending for
comparable keys, which is all the claims depend on). -/
def insertCp (p : CpPoint) : List CpPoint → List CpPoint
  | [] => [p]
  | q :: rest => if jsGt q.x p.x = true then p :: q :: rest else q :: insertCp p rest

/-- Sort the Cp distribution by streamwise x position. -/
def sortCpByX (l : List CpPoint) : List CpPoint := l.foldr insertCp []

/-- The calculatePhysics entry point of the physics service.  The
chordLength argument (source default 1) is accepted and, as in the
source body, never read.  The final record applies the JavaScript
or-guards: Cl falls back to 0 and Cd to 0.01 when falsy (zero or NaN),
the moment coefficient is -0.25 times the unguarded lift variable, and
the center of pressure is the constant 0.25. -/
def calculatePhysics (P : RealPrims) (shape : List Point) (speed alphaDeg chordLength : JSNum) :
    PhysicsResult :=
  { liftCoefficient := jsOr (clStalledOf P shape speed alphaDeg) (jq 0)
    dragCoefficient := jsOr (cdOf P shape speed alphaDeg) (jq (1/100))
    momentCoefficient := jsMul (jq (-1/4)) (clStalledOf P shape speed alphaDeg)
    reynoldsNumber := reynoldsOf speed
    cpDistribution := sortCpByX (cpDistOf P shape speed alphaDeg)
    centerOfPressure := jq (1/4) }

/-! ### Lattice-Boltzmann fluid engine (WindTunnel component)

The grid is the fixed 100 x 200 (ROWS x COLS) lattice of the source.
All arithmetic in the engine is rational (u0, omega, the equilibrium
formula and the clamps), so the embedding uses plain rationals. -/

/-- The x components of the nine D2Q9 lattice directions. -/
def exd (i : Fin 9) : ℤ := [0, 1, 0, -1, 0, 1, -1, -1, 1].getD i.val 0

/-- The y components of the nine D2Q9 lattice directions. -/
def eyd (i : Fin 9) : ℤ := [0, 0, 1, 0, -1, 1, 1, -1, -1].getD i.val 0

/-- The D2Q9 lattice weights. -/
def wq (i : Fin 9) : ℚ :=
  [4/9, 1/9, 1/9, 1/9, 1/9, 1/36, 1/36, 1/36, 1/36].getD i.val 0

/-- The opposite-direction table for bounce-back. -/
def oppd (i : Fin 9) : Fin 9 :=
  ([0, 3, 4, 1, 2, 7, 8, 5, 6] : List (Fin 9)).getD i.val 0

/-- The boolean occupancy mask over the fixed simulation grid. -/
abbrev Mask := Fin 100 → Fin 200 → Bool

/-- The persistent state of the fluid engine: the front population
buffer n0, the back buffer n1 (the double buffer streamed into, whose
stale contents survive where no streaming branch writes), the derived
density and velocity fields, and the barrier mask.  This is the
exact-rational idealisation of the Float32 arrays, adequate for the
value-movement properties (bounce-back, boundary rules); it cannot
represent the non-finite values the source can reach, which the
float-faithful FState model further below covers. -/
structure LBMState where
  f : Fin 100 → Fin 200 → Fin 9 → ℚ
  fBack : Fin 100 → Fin 200 → Fin 9 → ℚ
  density : Fin 100 → Fin 200 → ℚ
  ux : Fin 100 → Fin 200 → ℚ
  uy : Fin 100 → Fin 200 → ℚ
  barrier : Mask

/-- The inflow speed u0 = Math.min(0.12, windSpeed * 0.002), written as
the conditional it denotes on the rationals. -/
def inflowU0 (windSpeed : ℚ) : ℚ :=
  if windSpeed * (2/1000) < 12/100 then windSpeed * (2/1000) else 12/100

/-- The BGK relaxation rate omega = 1 / (3 * visc + 0.5) at the fixed
viscosity 0.02. -/
def omegaLBM : ℚ := 1 / (3 * (2/100) + 1/2)

/-- The D2Q9 equilibrium distribution
w i * d * (1 + 3 eu + 4.5 eu^2 - 1.5 u^2). -/
def equilib (d u_x u_y : ℚ) (i : Fin 9) : ℚ :=
  let eu := (exd i : ℚ) * u_x + (eyd i : ℚ) * u_y
  wq i * d * (1 + 3 * eu + (9/2) * (eu * eu) - (3/2) * (u_x * u_x + u_y * u_y))

/-- Left-to-right sum over the nine directions, as the source loops. -/
def sum9 (g : Fin 9 → ℚ) : ℚ :=
  (((((((((0 : ℚ) + g 0) + g 1) + g 2) + g 3) + g 4) + g 5) + g 6) + g 7) + g 8

/-- Cell density: the sum of the populations. -/
def sumDen (s : LBMState) (y : Fin 100) (x : Fin 200) : ℚ := sum9 (fun i => s.f y x i)

/-- Cell x momentum: populations weighted by the direction x components. -/
def sumMomX (s : LBMState) (y : Fin 100) (x : Fin 200) : ℚ :=
  sum9 (fun i => s.f y x i * (exd i : ℚ))

/-- Cell y momentum: populations weighted by the direction y components. -/
def sumMomY (s : LBMState) (y : Fin 100) (x : Fin 200) : ℚ :=
  sum9 (fun i => s.f y x i * (eyd i : ℚ))

/-- The density stability floor: d below 0.01 is raised to 0.01. -/
def clampD (d : ℚ) : ℚ := if d < 1/100 then 1/100 else d

/-- The velocity stability clamp to the band [-0.35, 0.35], on the
rational idealisation.  In the source the comparisons are JavaScript
comparisons, under which a NaN velocity passes both tests unchanged;
that case is not representable here and is modelled by clampUF on the
float-faithful state below. -/
def clampU (v : ℚ) : ℚ :=
  if v > 7/20 then 7/20 else if v < -(7/20) then -(7/20) else v

/-- Density after the collision pass of one cell: barrier cells are
skipped (the stored value survives), inlet cells (x = 0) are forced to
unit density, and elsewhere the summed density is floored. -/
def collideD (ws : ℚ) (s : LBMState) (y : Fin 100) (x : Fin 200) : ℚ :=
  if s.barrier y x = true then s.density y x
  else if x.val = 0 then 1
  else clampD (sumDen s y x)

/-- Stored x velocity after the collision pass of one cell: skipped for
barrier cells, forced to u0 at the inlet column, and elsewhere the
momentum over the floored density, clamped. -/
def collideUx (ws : ℚ) (s : LBMState) (y : Fin 100) (x : Fin 200) : ℚ :=
  if s.barrier y x = true then s.ux y x
  else if x.val = 0 then inflowU0 ws
  else clampU (sumMomX s y x / clampD (sumDen s y x))

/-- Stored y velocity after the collision pass of one cell: skipped for
barrier cells, forced to 0 at the inlet column, and elsewhere clamped. -/
def collideUy (ws : ℚ) (s : LBMState) (y : Fin 100) (x : Fin 200) : ℚ :=
  if s.barrier y x = true then s.uy y x
  else if x.val = 0 then 0
  else clampU (sumMomY s y x / clampD (sumDen s y x))

/-- Population i of one cell after the collision pass: barrier cells
keep their populations; inlet cells are first overwritten with the
inflow equilibrium and then (as in the source, where the BGK loop also
runs over them) relaxed, which leaves them at the equilibrium; other
cells are relaxed toward the local equilibrium by omega. -/
def collideF (ws : ℚ) (s : LBMState) (y : Fin 100) (x : Fin 200) (i : Fin 9) : ℚ :=
  if s.barrier y x = true then s.f y x i
  else
    let d := if x.val = 0 then 1 else clampD (sumDen s y x)
    let u_x := if x.val = 0 then inflowU0 ws else clampU (sumMomX s y x / clampD (sumDen s y x))
    let u_y := if x.val = 0 then 0 else clampU (sumMomY s y x / clampD (sumDen s y x))
    let fMid := if x.val = 0 then equilib d u_x u_y i else s.f y x i
    fMid + omegaLBM * (equilib d u_x u_y i - fMid)

/-- The collision pass over the whole grid (the first loop of the
source simulate function), updating the front buffer and the stored
density and velocity fields in place. -/
def collide (ws : ℚ) (s : LBMState) : LBMState :=
  { f := fun y x i => collideF ws s y x i
    fBack := s.fBack
    density := fun y x => collideD ws s y x
    ux := fun y x => collideUx ws s y x
    uy := fun y x => collideUy ws s y x
    barrier := s.barrier }

/-- The streaming pass for one destination cell and direction, reading
the post-collision buffer.  Mirrors the source branch cascade exactly:
solid destination cells are skipped by the streaming loop and then
overwritten with the rest weights by the final pass (merged here); an
in-grid source that is solid bounces back from the destination cell
itself along the opposite direction; a vertically out-of-range source
wraps periodically, but only writes when the horizontal coordinate is
in range (otherwise the stale back-buffer value survives) and without
re-checking the barrier at the wrapped source; a source beyond the left
edge yields the rest weights; a source beyond the right edge is written
by no branch, so the stale back-buffer value survives. -/
def streamF (post : LBMState) (back : Fin 100 → Fin 200 → Fin 9 → ℚ)
    (y : Fin 100) (x : Fin 200) (i : Fin 9) : ℚ :=
  if post.barrier y x = true then wq i
  else
    let sx : ℤ := (x : ℤ) - exd i
    let sy : ℤ := (y : ℤ) - eyd i
    if h : 0 ≤ sx ∧ sx < 200 ∧ 0 ≤ sy ∧ sy < 100 then
      if post.barrier ⟨sy.toNat, by omega⟩ ⟨sx.toNat, by omega⟩ = true then
        post.f y x (oppd i)
      else post.f ⟨sy.toNat, by omega⟩ ⟨sx.toNat, by omega⟩ i
    else if sy < 0 ∨ 100 ≤ sy then
      if h2 : 0 ≤ sx ∧ sx < 200 then
        post.f ⟨((sy + 100) % 100).toNat, by omega⟩ ⟨sx.toNat, by omega⟩ i
      else back y x i
    else if sx < 0 then wq i
    else back y x i

/-- One full simulation step: collision, then streaming into the back
buffer, then the buffer swap.  After the swap the front buffer holds
the streamed populations and the back buffer holds the post-collision
populations of this step. -/
def simulate (ws : ℚ) (s : LBMState) : LBMState :=
  let c := collide ws s
  { f := fun y x i => streamF c s.fBack y x i
    fBack := c.f
    density := c.density
    ux := c.ux
    uy := c.uy
    barrier := c.barrier }

/-! ### Barrier rasterizer (WindTunnel component) -/

/-- Floor of a rational as the source Math.floor (flooring division). -/
def ratFloor (q : ℚ) : ℤ := Int.fdiv q.num q.den

/-- Ceiling of a rational as the source Math.ceil. -/
def ratCeil (q : ℚ) : ℤ := -(ratFloor (-q))

/-- The even-odd (ray crossing) point-in-polygon test of the source:
fold over the edges from each vertex i to its predecessor j, toggling
on edges that straddle the scan line and whose crossing lies to the
right of the probe point. -/
def insideEvenOdd (gp : List (ℚ × ℚ)) (xq yq : ℚ) : Bool :=
  (List.range gp.length).foldl
    (fun inside i =>
      let pI := gp.getD i (0, 0)
      let pJ := gp.getD ((i + gp.length - 1) % gp.length) (0, 0)
      if (decide (yq < pI.2) != decide (yq < pJ.2))
          && decide (xq < (pJ.1 - pI.1) * (yq - pI.2) / (pJ.2 - pI.2) + pI.1) then
        !inside
      else inside)
    false

/-- The rasterizePolygon function: the mask is first reset to all-fluid
(so the result never depends on the previous mask), polygons with fewer
than 3 vertices produce the all-fluid mask, and otherwise every cell
inside the axis-aligned bounding box (scaled into grid space by SCALE =
4 and clipped to the 200 x 100 grid of the only call site) that passes
the even-odd test is marked solid. -/
def rasterizePolygon (prev : Mask) (polygon : List (ℚ × ℚ)) : Mask :=
  if polygon.length < 3 then fun _ _ => false
  else
    let gridPoly := polygon.map (fun p => (p.1 / 4, p.2 / 4))
    let minX := gridPoly.foldl (fun m p => if p.1 < m then p.1 else m) 200
    let maxX := gridPoly.foldl (fun m p => if m < p.1 then p.1 else m) 0
    let minY := gridPoly.foldl (fun m p => if p.2 < m then p.2 else m) 100
    let maxY := gridPoly.foldl (fun m p => if m < p.2 then p.2 else m) 0
    let minXi : ℤ := max 0 (ratFloor minX)
    let maxXi : ℤ := min 199 (ratCeil maxX)
    let minYi : ℤ := max 0 (ratFloor minY)
    let maxYi : ℤ := min 99 (ratCeil maxY)
    fun y x =>
      decide (minYi ≤ (y.val : ℤ) ∧ (y.val : ℤ) ≤ maxYi ∧
              minXi ≤ (x.val : ℤ) ∧ (x.val : ℤ) ≤ maxXi)
      && insideEvenOdd gridPoly (x.val : ℚ) (y.val : ℚ)

/-! ### Float-faithful fluid engine state

The velocity-clamp claim is decided by the behavior of the source on
non-finite Float32 values: in JavaScript a NaN velocity passes both
clamp comparisons (NaN compared with anything is false) and is stored
unclamped — the regime the instability probe of the source exists to
detect.  The rational LBMState above cannot represent that regime, so
the engine is embedded a second time over JSNum, operation for
operation the same source code, and the clamp claim is settled on this
model. -/

/-- JavaScript less-than-or-equal: any comparison with NaN is false. -/
def JSNum.le : JSNum → JSNum → Bool
  | nan, _ => false
  | _, nan => false
  | negInf, _ => true
  | _, posInf => true
  | posInf, _ => false
  | _, negInf => false
  | num a, num b => decide (a ≤ b)

abbrev jsLe := JSNum.le

/-- The fluid-engine state over JavaScript numbers: the same fields as
LBMState with Float32 entries modelled as JSNum. -/
structure FState where
  f : Fin 100 → Fin 200 → Fin 9 → JSNum
  fBack : Fin 100 → Fin 200 → Fin 9 → JSNum
  density : Fin 100 → Fin 200 → JSNum
  ux : Fin 100 → Fin 200 → JSNum
  uy : Fin 100 → Fin 200 → JSNum
  barrier : Mask

/-- JavaScript Math.min of two numbers: NaN if either argument is NaN,
otherwise the smaller one. -/
def minJS (a b : JSNum) : JSNum :=
  if JSNum.isNaN a = true ∨ JSNum.isNaN b = true then JSNum.nan
  else if jsLt b a = true then b else a

/-- The inflow speed u0 = Math.min(0.12, windSpeed * 0.002) over
JavaScript numbers. -/
def inflowU0F (ws : JSNum) : JSNum := minJS (jq (12/100)) (jsMul ws (jq (2/1000)))

/-- The BGK relaxation rate 1 / (3 * 0.02 + 0.5) over JavaScript
numbers. -/
def omegaF : JSNum := jsDiv (jq 1) (jsAdd (jsMul (jq 3) (jq (2/100))) (jq (1/2)))

/-- The D2Q9 equilibrium w[i] * d * (1 + 3 eu + 4.5 eu eu - 1.5 u2)
over JavaScript numbers, with the source association order. -/
def equilibF (d u_x u_y : JSNum) (i : Fin 9) : JSNum :=
  let eu := jsAdd (jsMul (jq ((exd i : ℚ))) u_x) (jsMul (jq ((eyd i : ℚ))) u_y)
  let u2 := jsAdd (jsMul u_x u_x) (jsMul u_y u_y)
  jsMul (jsMul (jq (wq i)) d)
    (jsSub (jsAdd (jsAdd (jq 1) (jsMul (jq 3) eu)) (jsMul (jsMul (jq (9/2)) eu) eu))
      (jsMul (jq (3/2)) u2))

/-- Left-to-right sum over the nine directions over JavaScript
numbers. -/
def sum9F (g : Fin 9 → JSNum) : JSNum :=
  jsAdd (jsAdd (jsAdd (jsAdd (jsAdd (jsAdd (jsAdd (jsAdd (jsAdd (jq 0)
    (g 0)) (g 1)) (g 2)) (g 3)) (g 4)) (g 5)) (g 6)) (g 7)) (g 8)

/-- Cell density over JavaScript numbers. -/
def sumDenF (s : FState) (y : Fin 100) (x : Fin 200) : JSNum := sum9F (fun i => s.f y x i)

/-- Cell x momentum over JavaScript numbers. -/
def sumMomXF (s : FState) (y : Fin 100) (x : Fin 200) : JSNum :=
  sum9F (fun i => jsMul (s.f y x i) (jq ((exd i : ℚ))))

/-- Cell y momentum over JavaScript numbers. -/
def sumMomYF (s : FState) (y : Fin 100) (x : Fin 200) : JSNum :=
  sum9F (fun i => jsMul (s.f y x i) (jq ((eyd i : ℚ))))

/-- The density floor if (d < 0.01) d = 0.01 with the JavaScript
comparison: NaN is below no bound, so a NaN density passes through. -/
def clampDF (d : JSNum) : JSNum :=
  if jsLt d (jq (1/100)) = true then jq (1/100) else d

/-- The velocity clamp cascade of the source with JavaScript
comparisons: values above 0.35 become 0.35, values below -0.35 become
-0.35, and NaN fails both comparisons and passes through unclamped. -/
def clampUF (v : JSNum) : JSNum :=
  if jsGt v (jq (7/20)) = true then jq (7/20)
  else if jsLt v (jsNeg (jq (7/20))) = true then jsNeg (jq (7/20))
  else v

/-- Stored density after the collision pass, float model. -/
def collideDF (ws : JSNum) (s : FState) (y : Fin 100) (x : Fin 200) : JSNum :=
  if s.barrier y x = true then s.density y x
  else if x.val = 0 then jq 1
  else clampDF (sumDenF s y x)

/-- Stored x velocity after the collision pass, float model. -/
def collideUxF (ws : JSNum) (s : FState) (y : Fin 100) (x : Fin 200) : JSNum :=
  if s.barrier y x = true then s.ux y x
  else if x.val = 0 then inflowU0F ws
  else clampUF (jsDiv (sumMomXF s y x) (clampDF (sumDenF s y x)))

/-- Stored y velocity after the collision pass, float model. -/
def collideUyF (ws : JSNum) (s : FState) (y : Fin 100) (x : Fin 200) : JSNum :=
  if s.barrier y x = true then s.uy y x
  else if x.val = 0 then jq 0
  else clampUF (jsDiv (sumMomYF s y x) (clampDF (sumDenF s y x)))

/-- Population after the collision pass, float model (inlet cells are
overwritten with the inflow equilibrium and then relaxed, as in the
source where the BGK loop also covers them). -/
def collidePopF (ws : JSNum) (s : FState) (y : Fin 100) (x : Fin 200) (i : Fin 9) : JSNum :=
  if s.barrier y x = true then s.f y x i
  else
    let d := if x.val = 0 then jq 1 else clampDF (sumDenF s y x)
    let u_x := if x.val = 0 then inflowU0F ws
      else clampUF (jsDiv (sumMomXF s y x) (clampDF (sumDenF s y x)))
    let u_y := if x.val = 0 then jq 0
      else clampUF (jsDiv (sumMomYF s y x) (clampDF (sumDenF s y x)))
    let fMid := if x.val = 0 then equilibF d u_x u_y i else s.f y x i
    jsAdd fMid (jsMul omegaF (jsSub (equilibF d u_x u_y i) fMid))

/-- The collision pass over the whole grid, float model. -/
def collideStateF (ws : JSNum) (s : FState) : FState :=
  { f := fun y x i => collidePopF ws s y x i
    fBack := s.fBack
    density := fun y x => collideDF ws s y x
    ux := fun y x => collideUxF ws s y x
    uy := fun y x => collideUyF ws s y x
    barrier := s.barrier }

/-- The streaming pass for one destination cell and direction, float
model; branch structure identical to streamF. -/
def streamCellF (post : FState) (back : Fin 100 → Fin 200 → Fin 9 → JSNum)
    (y : Fin 100) (x : Fin 200) (i : Fin 9) : JSNum :=
  if post.barrier y x = true then jq (wq i)
  else
    let sx : ℤ := (x : ℤ) - exd i
    let sy : ℤ := (y : ℤ) - eyd i
    if h : 0 ≤ sx ∧ sx < 200 ∧ 0 ≤ sy ∧ sy < 100 then
      if post.barrier ⟨sy.toNat, by omega⟩ ⟨sx.toNat, by omega⟩ = true then
        post.f y x (oppd i)
      else post.f ⟨sy.toNat, by omega⟩ ⟨sx.toNat, by omega⟩ i
    else if sy < 0 ∨ 100 ≤ sy then
      if h2 : 0 ≤ sx ∧ sx < 200 then
        post.f ⟨((sy + 100) % 100).toNat, by omega⟩ ⟨sx.toNat, by omega⟩ i
      else back y x i
    else if sx < 0 then jq (wq i)
    else back y x i

/-- One full simulation step, float model: collision, streaming,
buffer swap. -/
def simulateF (ws : JSNum) (s : FState) : FState :=
  let c := collideStateF ws s
  { f := fun y x i => streamCellF c s.fBack y x i
    fBack := c.f
    density := c.density
    ux := c.ux
    uy := c.uy
    barrier := c.barrier }

/-! ### Concrete instantiations for closed theorems

ratPrims instantiates the transcendental primitives with rational
surrogates.  Wherever a concrete theorem below actually depends on a
value, the surrogate agrees exactly with the JavaScript function:
atan2 on the coordinate axes returns 0, pi, and plus or minus pi/2
(under the rational surrogate 355/113 of pi); sine and cosine at those
axis angles return their exact values 0, 1 and -1; hypot of an
axis-aligned difference returns the absolute value of the nonzero
component; Math.pow(0, e) with positive e returns 0.  At all other
arguments the surrogates return an arbitrary finite value, and the
theorems below depend only on finiteness there. -/

/-- Rational stand-ins for the Math library primitives, exact at every
argument the concrete theorems rely on (see the section comment). -/
def ratPrims : RealPrims :=
  { pi := jq (355/113)
    sqrt := fun _ => jq 1
    cos := fun v =>
      if v = jq 0 then jq 1
      else if v = jq (355/226) then jq 0
      else if v = jq (355/113) then jq (-1)
      else if v = jsNeg (jq (355/226)) then jq 0
      else jq (4/5)
    sin := fun v =>
      if v = jq 0 then jq 0
      else if v = jq (355/226) then jq 1
      else if v = jq (355/113) then jq 0
      else if v = jsNeg (jq (355/226)) then jq (-1)
      else jq (3/5)
    atan2 := fun dy dx =>
      if dy = jq 0 then (if jsLt dx (jq 0) = true then jq (355/113) else jq 0)
      else if dx = jq 0 then
        (if jsLt (jq 0) dy = true then jq (355/226) else jsNeg (jq (355/226)))
      else jq (1/2)
    hypot := fun a b =>
      if a = jq 0 then jsAbs b
      else if b = jq 0 then jsAbs a
      else jsAdd (jsAbs a) (jsAbs b)
    pow := fun b _ => if b = jq 0 then jq 0 else jq 1 }

/-- A degenerate two-panel polygon: both panels share the midpoint
(1, 0), so the off-diagonal influence entries divide zero by zero and
the influence system is numerically singular (all-NaN off-diagonals). -/
def degenerateTwoPanel : List Point :=
  [{ x := jq 0, y := jq 0 }, { x := jq 2, y := jq 0 }, { x := jq 0, y := jq 0 }]

/-- A right triangle with axis-aligned legs of lengths 3 and 4. -/
def rightTriangle : List Point :=
  [{ x := jq 0, y := jq 0 }, { x := jq 3, y := jq 0 }, { x := jq 3, y := jq 4 }]

/-- A single horizontal panel (two vertices). -/
def flatSegment : List Point :=
  [{ x := jq 0, y := jq 0 }, { x := jq 4, y := jq 0 }]

/-- A fluid state whose only solid cell is (row 0, column 5), with an
arbitrary marker population 77 stored in direction 4 of that solid
cell; everything else is at the rest weights. -/
def solidTopState : LBMState :=
  { f := fun y x i => if y.val = 0 ∧ x.val = 5 ∧ i.val = 4 then 77 else wq i
    fBack := fun _ _ i => wq i
    density := fun _ _ => 1
    ux := fun _ _ => 0
    uy := fun _ _ => 0
    barrier := fun y x => decide (y.val = 0 ∧ x.val = 5) }

/-- A fluid state whose only solid cell is (row 5, column 6), interior
to the grid, at the rest weights. -/
def solidMidState : LBMState :=
  { f := fun _ _ i => wq i
    fBack := fun _ _ i => wq i
    density := fun _ _ => 1
    ux := fun _ _ => 0
    uy := fun _ _ => 0
    barrier := fun y x => decide (y.val = 5 ∧ x.val = 6) }

/-- The all-fluid rest state. -/
def uniformState : LBMState :=
  { f := fun _ _ i => wq i
    fBack := fun _ _ i => wq i
    density := fun _ _ => 1
    ux := fun _ _ => 0
    uy := fun _ _ => 0
    barrier := fun _ _ => false }

/-- The all-fluid rest state of the float model. -/
def uniformStateF : FState :=
  { f := fun _ _ i => jq (wq i)
    fBack := fun _ _ i => jq (wq i)
    density := fun _ _ => jq 1
    ux := fun _ _ => jq 0
    uy := fun _ _ => jq 0
    barrier := fun _ _ => false }

/-- A float-model state whose populations at the interior cell
(row 5, column 5) have gone NaN — the non-finite regime the source
instability probe exists to detect — with everything else at the rest
weights and no barrier. -/
def nanVelocityState : FState :=
  { f := fun y x i => if y.val = 5 ∧ x.val = 5 then JSNum.nan else jq (wq i)
    fBack := fun _ _ i => jq (wq i)
    density := fun _ _ => jq 1
    ux := fun _ _ => jq 0
    uy := fun _ _ => jq 0
    barrier := fun _ _ => false }

/-- The inflow equilibrium distribution in the sense of the
specification: the D2Q9 equilibrium at unit density and the inflow
velocity (u0, 0).  This is the comparison point for the left-edge
streaming rule; the code instead writes the rest weights there. -/
def inflowEquilibrium (ws : ℚ) (i : Fin 9) : ℚ := equilib 1 (inflowU0 ws) 0 i

/-- An all-solid previous mask, to exhibit that rasterization resets. -/
def allSolidMask : Mask := fun _ _ => true

/-! ### Helper lemmas -/

lemma isNaN_true_eq {a : JSNum} (h : JSNum.isNaN a = true) : a = JSNum.nan := by
  cases a <;> simp_all [JSNum.isNaN]

lemma orDefault_isNaN_false (a b : JSNum) (hb : JSNum.isNaN b = false) :
    JSNum.isNaN (JSNum.orDefault a b) = false := by
  unfold JSNum.orDefault
  by_cases h : JSNum.truthy a = true
  · rw [if_pos h]; cases a <;> simp_all [JSNum.truthy, JSNum.isNaN]
  · rw [if_neg h]; exact hb

lemma orDefault_ne_zero (a b : JSNum) (hb : b ≠ JSNum.num 0) :
    JSNum.orDefault a b ≠ JSNum.num 0 := by
  unfold JSNum.orDefault
  by_cases h : JSNum.truthy a = true
  · rw [if_pos h]
    intro heq
    rw [heq] at h
    simp [JSNum.truthy] at h
  · rw [if_neg h]; exact hb

lemma falsy_not_nan_eq_zero (a : JSNum) (h1 : JSNum.truthy a = false)
    (h2 : JSNum.isNaN a = false) : a = JSNum.num 0 := by
  cases a with
  | num q =>
      have hq : q = 0 := by simpa [JSNum.truthy] using h1
      rw [hq]
  | posInf => simp [JSNum.truthy] at h1
  | negInf => simp [JSNum.truthy] at h1
  | nan => simp [JSNum.isNaN] at h2

/-- The output of the float-model clamp cascade is NaN (when the input
is NaN, which fails both comparisons) or bounded in magnitude by
0.35. -/
lemma clampUF_nan_or_bounded (v : JSNum) :
    JSNum.isNaN (clampUF v) = true ∨
    JSNum.le (jsAbs (clampUF v)) (jq (7/20)) = true := by
  cases v with
  | nan => left; rfl
  | posInf => right; decide!
  | negInf => right; decide!
  | num q =>
      unfold clampUF
      by_cases h1 : jsGt (JSNum.num q) (jq (7/20)) = true
      · rw [if_pos h1]; right; decide!
      · rw [if_neg h1]
        by_cases h2 : jsLt (JSNum.num q) (jsNeg (jq (7/20))) = true
        · rw [if_pos h2]; right; decide!
        · rw [if_neg h2]
          right
          have hq1 : ¬ (7/20 : ℚ) < q := by
            simpa [jsGt, JSNum.gt, JSNum.lt, jq] using h1
          have hq2 : ¬ q < -(7/20 : ℚ) := by
            simpa [jsLt, JSNum.lt, jq, JSNum.neg] using h2
          show decide (|q| ≤ (7/20 : ℚ)) = true
          simp only [decide_eq_true_eq]
          rw [abs_le]
          exact ⟨by linarith, by linarith⟩

lemma oppd_oppd : ∀ d : Fin 9, oppd (oppd d) = d := by decide

lemma exd_oppd : ∀ d : Fin 9, exd (oppd d) = -(exd d) := by decide

lemma eyd_oppd : ∀ d : Fin 9, eyd (oppd d) = -(eyd d) := by decide

/-- Streaming characterisation: an in-grid solid source bounces the
opposite-direction population of the destination cell back into it. -/
lemma streamF_src_solid (post : LBMState) (back : Fin 100 → Fin 200 → Fin 9 → ℚ)
    (y sy : Fin 100) (x sx : Fin 200) (i : Fin 9)
    (hb : post.barrier y x = false)
    (hsy : (sy : ℤ) = (y : ℤ) - eyd i) (hsx : (sx : ℤ) = (x : ℤ) - exd i)
    (hs : post.barrier sy sx = true) :
    streamF post back y x i = post.f y x (oppd i) := by
  unfold streamF
  rw [if_neg (by simp [hb])]
  have hy2 := sy.isLt
  have hx2 := sx.isLt
  have hin : 0 ≤ (x : ℤ) - exd i ∧ (x : ℤ) - exd i < 200 ∧
      0 ≤ (y : ℤ) - eyd i ∧ (y : ℤ) - eyd i < 100 := by omega
  rw [dif_pos hin]
  have e1 : (⟨((y : ℤ) - eyd i).toNat, by omega⟩ : Fin 100) = sy := by
    apply Fin.ext
    show ((y : ℤ) - eyd i).toNat = sy.val
    omega
  have e2 : (⟨((x : ℤ) - exd i).toNat, by omega⟩ : Fin 200) = sx := by
    apply Fin.ext
    show ((x : ℤ) - exd i).toNat = sx.val
    omega
  rw [e1, e2, if_pos hs]

/-- Streaming characterisation: a source beyond the left edge (with the
vertical coordinate in range) receives the rest weights. -/
lemma streamF_left_rest (post : LBMState) (back : Fin 100 → Fin 200 → Fin 9 → ℚ)
    (y : Fin 100) (x : Fin 200) (i : Fin 9)
    (hb : post.barrier y x = false)
    (hsx : (x : ℤ) - exd i < 0) (hsy0 : 0 ≤ (y : ℤ) - eyd i)
    (hsy1 : (y : ℤ) - eyd i < 100) :
    streamF post back y x i = wq i := by
  unfold streamF
  rw [if_neg (by simp [hb])]
  rw [dif_neg (by omega)]
  rw [if_neg (by omega : ¬((y : ℤ) - eyd i < 0 ∨ 100 ≤ (y : ℤ) - eyd i))]
  rw [if_pos hsx]

/-- Streaming characterisation: a vertically out-of-range source with
the horizontal coordinate in range wraps periodically, reading the
post-collision buffer at the wrapped source without a barrier check. -/
lemma streamF_wrap (post : LBMState) (back : Fin 100 → Fin 200 → Fin 9 → ℚ)
    (y wy : Fin 100) (x sx : Fin 200) (i : Fin 9)
    (hb : post.barrier y x = false)
    (hout : (y : ℤ) - eyd i < 0 ∨ 100 ≤ (y : ℤ) - eyd i)
    (hsx : (sx : ℤ) = (x : ℤ) - exd i)
    (hwy : (wy : ℤ) = (((y : ℤ) - eyd i) + 100) % 100) :
    streamF post back y x i = post.f wy sx i := by
  unfold streamF
  rw [if_neg (by simp [hb])]
  rw [dif_neg (by omega)]
  rw [if_pos hout]
  have hx2 := sx.isLt
  have hsxb : 0 ≤ (x : ℤ) - exd i ∧ (x : ℤ) - exd i < 200 := by omega
  rw [dif_pos hsxb]
  have e1 : (⟨((((y : ℤ) - eyd i) + 100) % 100).toNat, by omega⟩ : Fin 100) = wy := by
    apply Fin.ext
    show ((((y : ℤ) - eyd i) + 100) % 100).toNat = wy.val
    omega
  have e2 : (⟨((x : ℤ) - exd i).toNat, by omega⟩ : Fin 200) = sx := by
    apply Fin.ext
    show ((x : ℤ) - exd i).toNat = sx.val
    omega
  rw [e1, e2]

/-! ### Claim theorems -/

/-- C1: the claim says a numerically singular influence system falls
back to an all-zero circulation vector and yields a finite
PhysicsResult with zero lift.  Evaluating the code on a degenerate
2-panel geometry (coincident panel midpoints, hence a singular all-NaN
system) shows what the code actually does: solveLinearSystem cannot
throw, so the catch-based zero fallback never fires, gamma is the
all-NaN vector rather than the zero vector, and the NaN propagates
into the returned moment coefficient, so the result is not finite.
Only the lift-coefficient guard (NaN is falsy) yields 0. -/
theorem c1_singular_system_no_zero_fallback :
    gammaOf ratPrims degenerateTwoPanel (jq 45) (jq 0) = [JSNum.nan, JSNum.nan] ∧
    gammaOf ratPrims degenerateTwoPanel (jq 45) (jq 0) ≠ [jq 0, jq 0] ∧
    (calculatePhysics ratPrims degenerateTwoPanel (jq 45) (jq 0) (jq 1)).momentCoefficient =
      JSNum.nan ∧
    JSNum.isFiniteB
      ((calculatePhysics ratPrims degenerateTwoPanel (jq 45) (jq 0) (jq 1)).momentCoefficient) =
      false ∧
    (calculatePhysics ratPrims degenerateTwoPanel (jq 45) (jq 0) (jq 1)).liftCoefficient =
      jq 0 := by
  decide!

/-- C2 counterexample: at speed 0 and angle 20 (beyond the stall
threshold) on a valid 3-vertex polygon, the computed drag coefficient
is positive infinity (0.074 divided by Math.pow(0, 0.2) = 0), which is
not a finite number, yet the returned record carries that infinity
instead of the 0.01 floor the claim promises: the JavaScript or-guard
only replaces falsy values (NaN and zero), and infinity is truthy. -/
theorem c2_counterexample_infinite_drag :
    JSNum.isFiniteB
      ((calculatePhysics ratPrims rightTriangle (jq 0) (jq 20) (jq 1)).dragCoefficient) =
      false ∧
    (calculatePhysics ratPrims rightTriangle (jq 0) (jq 20) (jq 1)).dragCoefficient =
      JSNum.posInf ∧
    (calculatePhysics ratPrims rightTriangle (jq 0) (jq 20) (jq 1)).dragCoefficient ≠
      jq (1/100) := by
  decide!

/-- C2 amended: calculatePhysics always returns a complete record (the
embedding is total, matching the throw-free source).  On every
invocation the returned lift and drag coefficients are never NaN and
the returned drag is never zero: a NaN computed lift is replaced by 0
and a NaN (or zero) computed drag by the 0.01 floor — but infinite
coefficients pass the guards unchanged, so only NaN (not every
non-finite value) is replaced. -/
theorem c2_guards_replace_nan (P : RealPrims) (shape : List Point)
    (speed alphaDeg chord : JSNum) :
    (JSNum.isNaN (clStalledOf P shape speed alphaDeg) = true →
      (calculatePhysics P shape speed alphaDeg chord).liftCoefficient = jq 0) ∧
    JSNum.isNaN ((calculatePhysics P shape speed alphaDeg chord).liftCoefficient) = false ∧
    JSNum.isNaN ((calculatePhysics P shape speed alphaDeg chord).dragCoefficient) = false ∧
    (calculatePhysics P shape speed alphaDeg chord).dragCoefficient ≠ jq 0 := by
  refine ⟨?_, ?_, ?_, ?_⟩
  · intro h
    have hcl : clStalledOf P shape speed alphaDeg = JSNum.nan := isNaN_true_eq h
    show JSNum.orDefault (clStalledOf P shape speed alphaDeg) (jq 0) = jq 0
    rw [hcl]
    rfl
  · exact orDefault_isNaN_false _ _ rfl
  · exact orDefault_isNaN_false _ _ rfl
  · refine orDefault_ne_zero _ _ ?_
    intro hcon
    have : (1/100 : ℚ) = 0 := congrArg (fun v => match v with | JSNum.num q => q | _ => 0) hcon
    norm_num at this

theorem c2_guards_replace_nan_witness :
    JSNum.isNaN (clStalledOf ratPrims rightTriangle (jq 0) (jq 20)) = true ∧
    (calculatePhysics ratPrims rightTriangle (jq 0) (jq 20) (jq 1)).liftCoefficient = jq 0 ∧
    JSNum.isNaN
      ((calculatePhysics ratPrims rightTriangle (jq 0) (jq 20) (jq 1)).dragCoefficient) =
      false :=
  ⟨by decide!,
   (c2_guards_replace_nan ratPrims rightTriangle (jq 0) (jq 20) (jq 1)).1 (by decide!),
   (c2_guards_replace_nan ratPrims rightTriangle (jq 0) (jq 20) (jq 1)).2.2.1⟩

/-- C3 counterexample: at speed 0 and angle 20 the computed lift is
NaN, so the returned lift coefficient is 0 (guarded) while the returned
moment coefficient is -0.25 times the unguarded NaN, i.e. NaN — the
returned moment does not equal -0.25 times the returned lift. -/
theorem c3_counterexample_moment_nan :
    (calculatePhysics ratPrims rightTriangle (jq 0) (jq 20) (jq 1)).momentCoefficient ≠
      jsMul (jq (-1/4))
        ((calculatePhysics ratPrims rightTriangle (jq 0) (jq 20) (jq 1)).liftCoefficient) := by
  decide!

/-- C3 amended: on every invocation the returned moment coefficient is
-0.25 times the computed (pre-guard) lift variable and the returned
center-of-pressure fraction is the constant 0.25; whenever that
computed lift is not NaN, the returned moment also equals -0.25 times
the returned lift coefficient. -/
theorem c3_moment_and_cop (P : RealPrims) (shape : List Point)
    (speed alphaDeg chord : JSNum) :
    (calculatePhysics P shape speed alphaDeg chord).momentCoefficient =
      jsMul (jq (-1/4)) (clStalledOf P shape speed alphaDeg) ∧
    (calculatePhysics P shape speed alphaDeg chord).centerOfPressure = jq (1/4) ∧
    (JSNum.isNaN (clStalledOf P shape speed alphaDeg) = false →
      (calculatePhysics P shape speed alphaDeg chord).momentCoefficient =
        jsMul (jq (-1/4)) ((calculatePhysics P shape speed alphaDeg chord).liftCoefficient)) := by
  refine ⟨rfl, rfl, fun h => ?_⟩
  show jsMul (jq (-1/4)) (clStalledOf P shape speed alphaDeg) =
    jsMul (jq (-1/4)) (JSNum.orDefault (clStalledOf P shape speed alphaDeg) (jq 0))
  by_cases ht : JSNum.truthy (clStalledOf P shape speed alphaDeg) = true
  · rw [JSNum.orDefault, if_pos ht]
  · have hz : clStalledOf P shape speed alphaDeg = JSNum.num 0 :=
      falsy_not_nan_eq_zero _ (by revert ht; cases JSNum.truthy (clStalledOf P shape speed alphaDeg) <;> simp) h
    rw [hz]
    rfl

theorem c3_moment_and_cop_witness :
    JSNum.isNaN (clStalledOf ratPrims flatSegment (jq 45) (jq 0)) = false ∧
    (calculatePhysics ratPrims flatSegment (jq 45) (jq 0) (jq 1)).momentCoefficient =
      jsMul (jq (-1/4))
        ((calculatePhysics ratPrims flatSegment (jq 45) (jq 0) (jq 1)).liftCoefficient) ∧
    (calculatePhysics ratPrims flatSegment (jq 45) (jq 0) (jq 1)).centerOfPressure = jq (1/4) :=
  ⟨by decide!,
   (c3_moment_and_cop ratPrims flatSegment (jq 45) (jq 0) (jq 1)).2.2 (by decide!),
   (c3_moment_and_cop ratPrims flatSegment (jq 45) (jq 0) (jq 1)).2.1⟩

/-- C4: the returned Reynolds number is exactly speed times the fixed
reference chord 0.2 divided by the fixed kinematic viscosity 1.460e-5,
for every polygon (hence independent of the on-screen size), speed,
angle and chord argument.  The nonempty-shape hypothesis marks the
domain on which the embedding is faithful (the source throws on an
empty vertex list when allocating Array(-1)). -/
theorem c4_reynolds_fixed_chord (P : RealPrims) (shape : List Point)
    (speed alphaDeg chord : JSNum) (h : 1 ≤ shape.length) :
    (calculatePhysics P shape speed alphaDeg chord).reynoldsNumber =
      jsDiv (jsMul speed (jq (1/5))) (jq (73/5000000)) := rfl

theorem c4_reynolds_fixed_chord_witness :
    1 ≤ rightTriangle.length ∧
    (calculatePhysics ratPrims rightTriangle (jq 45) (jq 5) (jq 1)).reynoldsNumber =
      jsDiv (jsMul (jq 45) (jq (1/5))) (jq (73/5000000)) :=
  ⟨by decide, c4_reynolds_fixed_chord ratPrims rightTriangle (jq 45) (jq 5) (jq 1) (by decide)⟩

/-- C5: the returned lift coefficient is the guarded value of the
Kutta-Joukowski lift 2 Gamma / (speed * 200), multiplied by
cos(alpha) * 0.8 exactly when the absolute angle of incidence (in
radians) exceeds the fixed stall threshold 15 degrees, and left
untouched otherwise. -/
theorem c5_stall_correction (P : RealPrims) (shape : List Point)
    (speed alphaDeg chord : JSNum) (h : 1 ≤ shape.length) :
    (calculatePhysics P shape speed alphaDeg chord).liftCoefficient =
      JSNum.orDefault
        (if jsGt (jsAbs (alphaRad P alphaDeg)) (stallAngleOf P) = true then
          jsMul
            (jsDiv (jsMul (jq 2) (circulationOf P shape speed alphaDeg))
              (jsMul speed (jq 200)))
            (jsMul (P.cos (alphaRad P alphaDeg)) (jq (4/5)))
        else
          jsDiv (jsMul (jq 2) (circulationOf P shape speed alphaDeg))
            (jsMul speed (jq 200)))
        (jq 0) := rfl

theorem c5_stall_correction_witness :
    1 ≤ flatSegment.length ∧
    (calculatePhysics ratPrims flatSegment (jq 45) (jq 0) (jq 1)).liftCoefficient =
      JSNum.orDefault
        (if jsGt (jsAbs (alphaRad ratPrims (jq 0))) (stallAngleOf ratPrims) = true then
          jsMul
            (jsDiv (jsMul (jq 2) (circulationOf ratPrims flatSegment (jq 45) (jq 0)))
              (jsMul (jq 45) (jq 200)))
            (jsMul (ratPrims.cos (alphaRad ratPrims (jq 0))) (jq (4/5)))
        else
          jsDiv (jsMul (jq 2) (circulationOf ratPrims flatSegment (jq 45) (jq 0)))
            (jsMul (jq 45) (jq 200)))
        (jq 0) :=
  ⟨by decide, c5_stall_correction ratPrims flatSegment (jq 45) (jq 0) (jq 1) (by decide)⟩

/-- C6: the rasterizer resets the mask before marking cells — its
output is independent of whatever mask was there before — and a polygon
with fewer than 3 vertices rasterizes to the all-fluid mask. -/
theorem c6_rasterize_reset (prev prev2 : Mask) (poly : List (ℚ × ℚ)) :
    rasterizePolygon prev poly = rasterizePolygon prev2 poly ∧
    (poly.length < 3 →
      ∀ (y : Fin 100) (x : Fin 200), rasterizePolygon prev poly y x = false) := by
  refine ⟨rfl, fun h y x => ?_⟩
  unfold rasterizePolygon
  rw [if_pos h]

theorem c6_rasterize_reset_witness :
    ([((1 : ℚ), (1 : ℚ)), ((2 : ℚ), (2 : ℚ))].length < 3) ∧
    rasterizePolygon allSolidMask [((1 : ℚ), (1 : ℚ)), ((2 : ℚ), (2 : ℚ))] =
      rasterizePolygon (fun _ _ => false) [((1 : ℚ), (1 : ℚ)), ((2 : ℚ), (2 : ℚ))] ∧
    rasterizePolygon allSolidMask [((1 : ℚ), (1 : ℚ)), ((2 : ℚ), (2 : ℚ))] 3 7 = false :=
  ⟨by decide,
   (c6_rasterize_reset allSolidMask (fun _ _ => false) [((1 : ℚ), (1 : ℚ)), ((2 : ℚ), (2 : ℚ))]).1,
   (c6_rasterize_reset allSolidMask (fun _ _ => false)
     [((1 : ℚ), (1 : ℚ)), ((2 : ℚ), (2 : ℚ))]).2 (by decide) 3 7⟩

/-- C7 counterexample: the stability clamp uses JavaScript comparisons,
so a NaN velocity fails both clamp tests and is stored unclamped.  On
a state whose populations at the interior non-solid cell (5, 5) have
gone NaN (the regime the source instability probe exists to detect),
the step stores ux = NaN at that cell, and NaN does not satisfy the
claimed bound: |NaN| is at most 0.35 is false under the JavaScript
ordering. -/
theorem c7_counterexample_nan_passes_clamp :
    nanVelocityState.barrier 5 5 = false ∧
    (5 : Fin 200).val ≠ 0 ∧
    (simulateF (jq 45) nanVelocityState).ux 5 5 = JSNum.nan ∧
    JSNum.le (jsAbs ((simulateF (jq 45) nanVelocityState).ux 5 5)) (jq (7/20)) = false := by
  decide!

/-- C7 amended: after every simulation step of the float-faithful
engine, every non-solid cell outside the inflow (leftmost) column
stores velocity components each of which is either NaN (the clamp
comparisons both fail on NaN, which passes through unclamped) or
bounded in magnitude by the 0.35 stability clamp. -/
theorem c7_velocity_clamp_or_nan (ws : JSNum) (s : FState) (y : Fin 100) (x : Fin 200)
    (hb : s.barrier y x = false) (hx : x.val ≠ 0) :
    (JSNum.isNaN ((simulateF ws s).ux y x) = true ∨
      JSNum.le (jsAbs ((simulateF ws s).ux y x)) (jq (7/20)) = true) ∧
    (JSNum.isNaN ((simulateF ws s).uy y x) = true ∨
      JSNum.le (jsAbs ((simulateF ws s).uy y x)) (jq (7/20)) = true) := by
  have hux : (simulateF ws s).ux y x =
      clampUF (jsDiv (sumMomXF s y x) (clampDF (sumDenF s y x))) := by
    show collideUxF ws s y x = _
    unfold collideUxF
    rw [if_neg (by simp [hb]), if_neg hx]
  have huy : (simulateF ws s).uy y x =
      clampUF (jsDiv (sumMomYF s y x) (clampDF (sumDenF s y x))) := by
    show collideUyF ws s y x = _
    unfold collideUyF
    rw [if_neg (by simp [hb]), if_neg hx]
  constructor
  · rw [hux]; exact clampUF_nan_or_bounded _
  · rw [huy]; exact clampUF_nan_or_bounded _

theorem c7_velocity_clamp_or_nan_witness :
    uniformStateF.barrier 1 1 = false ∧ (1 : Fin 200).val ≠ 0 ∧
    (JSNum.isNaN ((simulateF (jq 45) uniformStateF).ux 1 1) = true ∨
      JSNum.le (jsAbs ((simulateF (jq 45) uniformStateF).ux 1 1)) (jq (7/20)) = true) ∧
    (JSNum.isNaN ((simulateF (jq 45) uniformStateF).uy 1 1) = true ∨
      JSNum.le (jsAbs ((simulateF (jq 45) uniformStateF).uy 1 1)) (jq (7/20)) = true) := by
  have h := c7_velocity_clamp_or_nan (jq 45) uniformStateF 1 1 rfl (by decide)
  exact ⟨rfl, by decide, h.1, h.2⟩

/-- C8 counterexample: the claim forbids populations leaking into or
out of solid cells, but the periodic wrap branch of streaming performs
no barrier check.  With a solid cell at (row 0, column 5) carrying a
marker population 77 in direction 4, the fluid cell (row 99, column 5)
reads that population through the bottom-to-top wrap: after the step it
holds 77 in direction 4 — the solid population leaked out — instead of
the bounce-back reflection of its own direction-2 population (1/9). -/
theorem c8_counterexample_wrap_leak :
    solidTopState.barrier 0 5 = true ∧
    solidTopState.barrier 99 5 = false ∧
    (simulate 45 solidTopState).f 99 5 4 = solidTopState.f 0 5 4 ∧
    (simulate 45 solidTopState).f 99 5 4 = 77 ∧
    (simulate 45 solidTopState).f 99 5 4 ≠ (collide 45 solidTopState).f 99 5 2 := by
  decide!

/-- C8 amended: for a non-solid cell whose neighbor along direction d
lies inside the grid (no wrap) and is solid, the post-collision
population of the cell in direction d reappears after the step in the
same cell along the opposite direction (no-slip bounce-back), and every
solid cell has all populations reset to the rest weights each step.
Across the top/bottom periodic wrap the barrier check is skipped, so
the claim only holds for in-grid neighbors (see the counterexample). -/
theorem c8_bounce_back_in_grid (ws : ℚ) (s : LBMState) (y ny : Fin 100) (x nx : Fin 200)
    (d : Fin 9) (hb : s.barrier y x = false)
    (hny : (ny : ℤ) = (y : ℤ) + eyd d) (hnx : (nx : ℤ) = (x : ℤ) + exd d)
    (hsolid : s.barrier ny nx = true) :
    (simulate ws s).f y x (oppd d) = (collide ws s).f y x d ∧
    (∀ (ys : Fin 100) (xs : Fin 200) (j : Fin 9), s.barrier ys xs = true →
      (simulate ws s).f ys xs j = wq j) := by
  constructor
  · show streamF (collide ws s) s.fBack y x (oppd d) = (collide ws s).f y x d
    have h1 : (ny : ℤ) = (y : ℤ) - eyd (oppd d) := by rw [eyd_oppd]; omega
    have h2 : (nx : ℤ) = (x : ℤ) - exd (oppd d) := by rw [exd_oppd]; omega
    have hmain := streamF_src_solid (collide ws s) s.fBack y ny x nx (oppd d) hb h1 h2 hsolid
    rw [hmain, oppd_oppd]
  · intro ys xs j hsol
    show streamF (collide ws s) s.fBack ys xs j = wq j
    have hsol2 : (collide ws s).barrier ys xs = true := hsol
    unfold streamF
    rw [if_pos hsol2]

theorem c8_bounce_back_in_grid_witness :
    solidMidState.barrier 5 5 = false ∧ solidMidState.barrier 5 6 = true ∧
    (simulate 45 solidMidState).f 5 5 (oppd 1) = (collide 45 solidMidState).f 5 5 1 :=
  ⟨by decide, by decide,
   (c8_bounce_back_in_grid 45 solidMidState 5 5 5 6 1 (by decide) (by decide) (by decide)
     (by decide)).1⟩

/-- C9 counterexample: the claim says populations whose source lies
beyond the left edge are set to the inflow equilibrium distribution.
The code writes the rest weights w i instead: on the all-fluid rest
state at wind speed 45 (inflow velocity 0.09), cell (5, 0) receives
1/9 in direction 1, which differs from the inflow equilibrium value. -/
theorem c9_counterexample_rest_weights :
    uniformState.barrier 5 0 = false ∧
    (simulate 45 uniformState).f 5 0 1 = wq 1 ∧
    (simulate 45 uniformState).f 5 0 1 ≠ inflowEquilibrium 45 1 := by
  decide!

/-- C9 amended: for a non-solid cell, a streaming source beyond the
left edge (with in-range vertical coordinate) receives the rest
weights w i — the zero-velocity equilibrium, not the inflow-velocity
equilibrium — and a vertically out-of-range source with in-range
horizontal coordinate wraps periodically, reading the post-collision
population at the wrapped source row. -/
theorem c9_edge_streaming (ws : ℚ) (s : LBMState) (y : Fin 100) (x : Fin 200) (i : Fin 9)
    (hb : s.barrier y x = false) :
    ((x : ℤ) - exd i < 0 → 0 ≤ (y : ℤ) - eyd i → (y : ℤ) - eyd i < 100 →
      (simulate ws s).f y x i = wq i) ∧
    (∀ (wy : Fin 100) (sx : Fin 200),
      ((y : ℤ) - eyd i < 0 ∨ 100 ≤ (y : ℤ) - eyd i) →
      (sx : ℤ) = (x : ℤ) - exd i →
      (wy : ℤ) = (((y : ℤ) - eyd i) + 100) % 100 →
      (simulate ws s).f y x i = (collide ws s).f wy sx i) := by
  constructor
  · intro h1 h2 h3
    show streamF (collide ws s) s.fBack y x i = wq i
    exact streamF_left_rest (collide ws s) s.fBack y x i hb h1 h2 h3
  · intro wy sx hout hsx hwy
    show streamF (collide ws s) s.fBack y x i = (collide ws s).f wy sx i
    exact streamF_wrap (collide ws s) s.fBack y wy x sx i hb hout hsx hwy

theorem c9_edge_streaming_witness :
    uniformState.barrier 5 0 = false ∧ ((0 : Fin 200) : ℤ) - exd 1 < 0 ∧
    (simulate 45 uniformState).f 5 0 1 = wq 1 :=
  ⟨rfl, by decide,
   (c9_edge_streaming 45 uniformState 5 0 1 rfl).1 (by decide) (by decide) (by decide)⟩

/-- C10: the chordLength argument of calculatePhysics is accepted but
never read, so two invocations differing only in that argument return
identical PhysicsResult records. -/
theorem c10_chord_length_unused (P : RealPrims) (shape : List Point)
    (speed alphaDeg c1 c2 : JSNum) (h : 3 ≤ shape.length) :
    calculatePhysics P shape speed alphaDeg c1 = calculatePhysics P shape speed alphaDeg c2 :=
  rfl

theorem c10_chord_length_unused_witness :
    3 ≤ rightTriangle.length ∧
    calculatePhysics ratPrims rightTriangle (jq 45) (jq 5) (jq 1) =
      calculatePhysics ratPrims rightTriangle (jq 45) (jq 5) (jq 2) :=
  ⟨by decide,
   c10_chord_length_unused ratPrims rightTriangle (jq 45) (jq 5) (jq 1) (jq 2) (by decide)⟩

end AeroSim
